import Mathlib

/-!
Verification of the howm window manager core (howm.c) against its
natural-language specification.  The C data model and the operations the
claims concern are shallowly embedded: the per-workspace singly-linked
client list becomes a Lean `List Client`, the `current`/`prev_foc`
pointers become window ids (`Option Nat`), machine integers are `Nat`/`Int`
with explicit reductions modulo 2^16 where C computes in `uint16_t`, and
external X-server effects (mapping, unmapping, borders, EWMH) are dropped,
keeping only their effect on the manager's own state.

Compile-time constants that live in the user-edited `config.h` (absent from
the sources; the spec describes them only by shape) are fixed to
representative values below; no theorem depends on the particular values
except where noted.
-/

namespace Howm

/-! ### Configuration constants (from config.h, which is user configuration;
values chosen to match the spec's concrete scenarios: 5 workspaces, bar on
top). -/

def WORKSPACES : Nat := 5
def DEFAULT_WORKSPACE : Int := 1
def DELETE_REGISTER_SIZE : Nat := 5
def BAR_BOTTOM : Bool := false
def BORDER_PX : Nat := 2
def FLOAT_SPAWN_WIDTH : Nat := 500
def FLOAT_SPAWN_HEIGHT : Nat := 500
def CENTER_FLOATING : Bool := true

/-! ### Enumerations from howm.c -/

def ZOOM : Nat := 0
def GRID : Nat := 1
def HSTACK : Nat := 2
def VSTACK : Nat := 3
def END_LAYOUT : Nat := 4

def OPERATOR_STATE : Nat := 0
def COUNT_STATE : Nat := 1
def MOTION_STATE : Nat := 2

def NORMAL : Nat := 0
def END_MODES : Nat := 3

/-- `enum motions { CLIENT, WORKSPACE }`. -/
def CLIENT : Nat := 0
def WORKSPACE : Nat := 1

/-- `enum ipc_errs`. -/
def IPC_ERR_NONE : Nat := 0
def IPC_ERR_SYNTAX : Nat := 1
def IPC_ERR_ALLOC : Nat := 2
def IPC_ERR_NO_CMD : Nat := 3
def IPC_ERR_TOO_MANY_ARGS : Nat := 4
def IPC_ERR_TOO_FEW_ARGS : Nat := 5
def IPC_ERR_ARG_NOT_INT : Nat := 6
def IPC_ERR_ARG_TOO_LARGE : Nat := 7

/-! ### Machine-integer helpers: `uint16_t` arithmetic. -/

/-- Reduction of a value to `uint16_t`. -/
def u16 (n : Nat) : Nat := n % 65536

/-- `uint16_t` subtraction `a - b` (wraps modulo 2^16 like C). -/
def sub16 (a b : Nat) : Nat := (u16 a + 65536 - u16 b) % 65536

/-! ### Data model -/

/-- `struct Client` of howm.c.  The `next` pointer is represented by the
position in the workspace's `head` list. -/
structure Client where
  win : Nat
  is_fullscreen : Bool := false
  is_floating : Bool := false
  is_transient : Bool := false
  is_urgent : Bool := false
  x : Nat := 0
  y : Nat := 0
  w : Nat := 0
  h : Nat := 0
  gap : Nat := 0
deriving DecidableEq

/-- `FFT(c)`: the client is transient, floating or fullscreen. -/
def FFT (c : Client) : Bool := c.is_transient || c.is_floating || c.is_fullscreen

/-- An exact fraction standing in for the C `float master_ratio`.  For the
ratio 0.5 of the claims and the pixel counts involved, `float` arithmetic
is exact, so the fraction model agrees with the C value. -/
structure Ratio where
  num : Nat
  den : Nat
deriving DecidableEq

/-- `Workspace` of howm.c.  `head` is the whole singly-linked list;
`prev_foc` and `current` are the window ids of the clients those pointers
reference (`none` for NULL). -/
structure Workspace where
  layout : Nat := ZOOM
  client_cnt : Int := 0
  gap : Nat := 0
  master_ratio : Ratio := ⟨1, 2⟩
  bar_height : Nat := 0
  head : List Client := []
  prev_foc : Option Nat := none
  current : Option Nat := none
deriving DecidableEq

/-- The module-level mutable state of howm.c that the claims concern:
the workspace array `wss` (indexed 1..WORKSPACES as in the source), the
current and last workspace indices, the previous layout, the delete
register stack `del_reg` (each element one detached client sublist), the
scratchpad slot and the screen dimensions. -/
structure SysState where
  wss : Int → Workspace
  cw : Int := DEFAULT_WORKSPACE
  last_ws : Int := 0
  prev_layout : Nat := 0
  del_reg : List (List Client) := []
  scratchpad : Option Client := none
  screen_width : Nat := 0
  screen_height : Nat := 0

/-- Point-update of the workspace array. -/
def setWs (s : SysState) (i : Int) (ws : Workspace) : SysState :=
  { s with wss := fun j => if j = i then ws else s.wss j }

/-! ### Client-list primitives -/

/-- The walking loop of `prev_client`:
`for (p = head; p->next && p->next != c; p = p->next); return p;`.
`p` is the node the pointer currently rests on, the list argument is what
follows it. -/
def prevClientAux (c : Nat) : Client → List Client → Client
  | p, [] => p
  | p, q :: rest => if q.win = c then p else prevClientAux c q rest

/-- `prev_client(c, ws)` of howm.c, with the workspace argument resolved to
its client list.  Returns NULL when `c` is NULL or the list has fewer than
two clients; otherwise walks from the head and stops when the next node is
`c` or the list ends. -/
def prev_client (c : Option Nat) (l : List Client) : Option Client :=
  match c, l with
  | none, _ => none
  | some _, [] => none
  | some _, [_] => none
  | some cid, p :: q :: rest => some (prevClientAux cid p (q :: rest))

/-- `next_client(c)` of howm.c on the current workspace's list: NULL for a
NULL argument or a list of fewer than two clients; otherwise the successor
of `c`, wrapping to the head after the tail.  (A `c` absent from the list is
a dangling-pointer dereference in C; the model returns `none`.) -/
def next_client (c : Option Nat) (l : List Client) : Option Client :=
  match c, l with
  | none, _ => none
  | some _, [] => none
  | some _, [_] => none
  | some cid, l@(_ :: _ :: _) =>
    match l.dropWhile (fun d => d.win ≠ cid) with
    | _ :: t :: _ => some t
    | [_] => l.head?
    | [] => none

/-! ### Layout engine -/

/-- Truncation of `n * ratio` from float to an unsigned integer (the value
is non-negative, so C's truncation toward zero is the floor). -/
def ratioTrunc (n : Nat) (r : Ratio) : Nat := n * r.num / r.den

/-- `change_client_geom`: the four geometry arguments pass through
`uint16_t` parameters. -/
def change_client_geom (c : Client) (x y w h : Nat) : Client :=
  { c with x := u16 x, y := u16 y, w := u16 w, h := u16 h }

/-- `get_non_tff_count()` over a client list. -/
def get_non_tff_count (l : List Client) : Nat :=
  (l.filter (fun c => !FFT c)).length

/-- `get_first_non_tff()` over a client list. -/
def get_first_non_tff (l : List Client) : Option Client :=
  l.find? (fun c => !FFT c)

/-- `zoom()`: every non-FFT client of the current workspace receives the
full drawable area (screen minus bar); FFT clients are untouched.  Border
drawing is an external effect. -/
def zoom (s : SysState) : SysState :=
  let ws := s.wss s.cw
  let newHead := ws.head.map (fun c =>
    if FFT c then c
    else change_client_geom c 0 (if BAR_BOTTOM then 0 else ws.bar_height)
      s.screen_width (sub16 s.screen_height ws.bar_height))
  setWs s s.cw { ws with head := newHead }

/-- The `for (c = c->next; c; c = c->next)` loop of `stack()`: the clients
after the master, with the running `client_x`/`client_y` accumulators. -/
def stackRest (vert : Bool) (scr_w scr_h bar ms client_span : Nat) :
    List Client → Nat → Nat → List Client
  | [], _, _ => []
  | c :: rest, cx, cy =>
    if FFT c then c :: stackRest vert scr_w scr_h bar ms client_span rest cx cy
    else if vert then
      change_client_geom c ms cy (sub16 scr_w ms) client_span ::
        stackRest vert scr_w scr_h bar ms client_span rest cx (u16 (cy + client_span))
    else
      change_client_geom c cx ms client_span (sub16 (sub16 scr_h bar) ms) ::
        stackRest vert scr_w scr_h bar ms client_span rest (u16 (cx + client_span)) cy

/-- The master assignment of `stack()`: FFT clients before the first
non-FFT client are untouched, the first non-FFT client receives the master
region, the rest are handled by `stackRest`. -/
def stackAssign (vert : Bool) (scr_w scr_h bar ms span client_span client_y : Nat) :
    List Client → List Client
  | [] => []
  | c :: rest =>
    if FFT c then
      c :: stackAssign vert scr_w scr_h bar ms span client_span client_y rest
    else if vert then
      change_client_geom c 0 client_y ms span ::
        stackRest vert scr_w scr_h bar ms client_span rest 0 client_y
    else
      change_client_geom c 0 (if BAR_BOTTOM then 0 else bar) span ms ::
        stackRest vert scr_w scr_h bar ms client_span rest 0 client_y

/-- `stack()`: vertical or horizontal stack layout of the current
workspace, falling back to `zoom` with at most one tilable client. -/
def stack (s : SysState) : SysState :=
  let ws := s.wss s.cw
  let vert := ws.layout = VSTACK
  let h := sub16 s.screen_height ws.bar_height
  let w := s.screen_width
  let n := get_non_tff_count ws.head
  let client_y := if BAR_BOTTOM then 0 else ws.bar_height
  let ms := u16 (ratioTrunc (if vert then w else h) ws.master_ratio)
  let span := if vert then h else w
  if n ≤ 1 then zoom s
  else
    let client_span := span / (n - 1)
    setWs s s.cw
      { ws with head := (stackAssign vert s.screen_width s.screen_height
          ws.bar_height ms span client_span client_y ws.head) }

/-- The column search of `grid()`:
`for (cols = 0; cols <= n / 2; cols++) if (cols * cols >= n) break;`. -/
def gridCols (n : Nat) : Nat :=
  (((List.range (n / 2 + 1)).find? (fun c => decide (n ≤ c * c)))).getD (n / 2 + 1)

/-- The client loop of `grid()`.  `i` is the 0-based index of the non-FFT
client (the source counts from -1 and pre-increments); `rows` is mutated
inside the loop and carried between iterations. -/
def gridLoop (n cols col_w col_h client_y : Nat) :
    List Client → Nat → Nat → Nat → Nat → List Client
  | [], _, _, _, _ => []
  | c :: rest, i, col_cnt, row_cnt, rows =>
    if FFT c then
      c :: gridLoop n cols col_w col_h client_y rest i col_cnt row_cnt rows
    else
      let rows1 := if cols - (n % cols) < (i / rows) + 1 then n / cols + 1 else rows
      let c1 := change_client_geom c (col_cnt * col_w)
        (client_y + (row_cnt * col_h / rows1)) col_w (col_h / rows1)
      if row_cnt + 1 ≥ rows1 then
        c1 :: gridLoop n cols col_w col_h client_y rest (i + 1) (col_cnt + 1) 0 rows1
      else
        c1 :: gridLoop n cols col_w col_h client_y rest (i + 1) col_cnt (row_cnt + 1) rows1

/-- `grid()`: column-major grid layout of the current workspace, falling
back to `zoom` with at most one tilable client. -/
def grid (s : SysState) : SysState :=
  let ws := s.wss s.cw
  let n := get_non_tff_count ws.head
  let client_y := if BAR_BOTTOM then 0 else ws.bar_height
  let col_h := sub16 s.screen_height ws.bar_height
  if n ≤ 1 then zoom s
  else
    let cols := gridCols n
    let rows := n / cols
    let col_w := s.screen_width / cols
    setWs s s.cw
      { ws with head := gridLoop n cols col_w col_h client_y ws.head 0 0 0 rows }

/-- `arrange_windows()`: nothing on an empty workspace, otherwise dispatch
through `layout_handler[wss[cw].head->next ? wss[cw].layout : ZOOM]`.
(`howm_info` only prints.) -/
def arrange_windows (s : SysState) : SysState :=
  let ws := s.wss s.cw
  if ws.head = [] then s
  else
    let l := if 2 ≤ ws.head.length then ws.layout else ZOOM
    if l = GRID then grid s
    else if l = ZOOM then zoom s
    else if l = HSTACK ∨ l = VSTACK then stack s
    else s

/-! ### Workspace model and focus -/

/-- `correct_ws(ws)`: wrap a workspace number into [1, WORKSPACES]. -/
def correct_ws (ws : Int) : Int :=
  if ws > (WORKSPACES : Int) then ws - WORKSPACES
  else if ws < 1 then ws + WORKSPACES
  else ws

/-- `find_client_by_win(win)`: scan workspaces 1..WORKSPACES in order,
each list front to back, for the window. -/
def find_client_by_win (win : Nat) (s : SysState) : Option Client :=
  ((List.range WORKSPACES).foldr
      (fun k acc => (s.wss ((k : Int) + 1)).head ++ acc) []).find?
    (fun c => c.win == win)

/-- `update_focused_client(c)`: the focus bookkeeping of the current
workspace (border colours, restacking and the EWMH active window are
external effects), ending in the `arrange_windows()` call of the source. -/
def update_focused_client (c : Option Nat) (s : SysState) : SysState :=
  match c with
  | none => s
  | some cid =>
    let ws := s.wss s.cw
    if ws.head = [] then
      setWs s s.cw { ws with prev_foc := none, current := none }
    else
      let s1 :=
        if some cid = ws.prev_foc then
          -- wss[cw].prev_foc = prev_client(wss[cw].current = wss[cw].prev_foc, cw)
          setWs s s.cw { ws with
            current := ws.prev_foc
            prev_foc := (prev_client ws.prev_foc ws.head).map Client.win }
        else if some cid ≠ ws.current then
          setWs s s.cw { ws with prev_foc := ws.current, current := some cid }
        else s
      arrange_windows s1

/-- `change_ws(arg)`: switch the current workspace.  The map/unmap loops
and the EWMH current-desktop and workarea updates are external effects. -/
def change_ws (i : Int) (s : SysState) : SysState :=
  if i > (WORKSPACES : Int) ∨ i ≤ 0 ∨ i = s.cw then s
  else
    let s1 := { s with last_ws := s.cw, cw := i }
    update_focused_client ((s1.wss i).current) s1

/-- `create_client(w)`: allocate the client, insert it at the tail of the
current workspace's list (each of the three source branches appends at the
tail: `prev_client(head, cw)` returns the tail for a two-or-more list),
inherit the workspace gap and bump `client_cnt`.  The event-mask and
frame-extents calls are external. -/
def create_client (w : Nat) (s : SysState) : SysState × Client :=
  let ws := s.wss s.cw
  let c : Client := { win := w, gap := ws.gap }
  let t := prev_client (ws.head.head?.map Client.win) ws.head
  let newHead :=
    if ws.head = [] then [c]
    else if t.isSome then ws.head ++ [c]   -- t->next = c, with t the tail
    else ws.head ++ [c]                    -- wss[cw].head->next = c (singleton)
  (setWs s s.cw { ws with head := newHead, client_cnt := ws.client_cnt + 1 }, c)

/-- The workspace scan of `remove_client`: index of the first workspace in
1..WORKSPACES whose list holds the client. -/
def findWsOf (cid : Nat) (s : SysState) : Option Int :=
  ((List.range WORKSPACES).map (fun k => ((k : Int) + 1))).find?
    (fun w => (s.wss w).head.any (fun c => c.win == cid))

/-- Unlink the first client with the given window from a list. -/
def removeFirstWin (cid : Nat) : List Client → List Client
  | [] => []
  | c :: rest => if c.win = cid then rest else c :: removeFirstWin cid rest

/-- `!wss[w].head->next` after the unlink.  (When the list became empty the
C code dereferences NULL; the model treats that read as true.) -/
def headNextNull (l : List Client) : Bool :=
  match l with
  | [] => true
  | [_] => true
  | _ => false

/-- `remove_client(c, refocus)`: scan all workspaces for the client, unlink
it, repair `prev_foc` and `current`, optionally refocus, and decrement the
workspace's client count. -/
def remove_client (cid : Nat) (refocus : Bool) (s : SysState) : SysState :=
  match findWsOf cid s with
  | none => s
  | some w =>
    let ws := s.wss w
    let ws1 := { ws with head := removeFirstWin cid ws.head }
    let ws2 :=
      if some cid = ws1.prev_foc then
        { ws1 with prev_foc := (prev_client ws1.current ws1.head).map Client.win }
      else ws1
    if some cid = ws2.current ∨ headNextNull ws2.head then
      let ws3 := { ws2 with current :=
        if ws2.prev_foc.isSome then ws2.prev_foc else ws2.head.head?.map Client.win }
      let s1 := setWs s w ws3
      let s2 := if refocus then update_focused_client ws3.current s1 else s1
      let wsf := s2.wss w
      setWs s2 w { wsf with client_cnt := wsf.client_cnt - 1 }
    else
      let s1 := setWs s w ws2
      let wsf := s1.wss w
      setWs s1 w { wsf with client_cnt := wsf.client_cnt - 1 }

/-- `unmap_event`: the handler receives the event's window, the event's
event field and the root window id.  Note the source guard
`!ue->event == screen->root`, which compares the C logical negation of the
event field (0 or 1) with the root window id. -/
def unmap_event (window event root : Nat) (s : SysState) : SysState :=
  match find_client_by_win window s with
  | none => s
  | some c =>
    if (if event = 0 then 1 else 0) = root then
      arrange_windows (remove_client c.win true s)
    else s

/-- Update the client with the given window in the current workspace's
list (the handlers mutate the freshly created client through its pointer;
its window id identifies it, map requests for already-managed windows
having been rejected). -/
def updateClientInCw (cid : Nat) (f : Client → Client) (s : SysState) : SysState :=
  let ws := s.wss s.cw
  setWs s s.cw
    { ws with head := ws.head.map (fun c => if c.win = cid then f c else c) }

/-- `client_to_ws(c, ws, follow)`: move a client from the current workspace
to workspace `ws`.  The target insert runs first (all three source branches
append at the tail), then the unlink from the current workspace, then
either `change_ws` (follow) or a refocus of the predecessor.  The unmap of
the moved window is external. -/
def client_to_ws (cid : Option Nat) (ws : Int) (follow : Bool) (s : SysState) : SysState :=
  match cid with
  | none => s
  | some c =>
    if ws = s.cw then s
    else
      match (s.wss s.cw).head.find? (fun d => d.win == c) with
      | none => s   -- a dangling client pointer; unreachable from the call sites
      | some cElt =>
        let prev := prev_client (some c) (s.wss s.cw).head
        let tgt := s.wss ws
        let tgt1 := { tgt with
          head := if tgt.head = [] then [cElt] else tgt.head ++ [cElt]
          current := some c
          client_cnt := tgt.client_cnt + 1 }
        let s1 := setWs s ws tgt1
        let src := s1.wss s.cw
        let srcHead1 :=
          if (src.head.head?.map Client.win) = some c ∨ prev.isNone then
            src.head.drop 1              -- wss[cw].head = c->next
          else removeFirstWin c src.head -- prev->next = c->next
        let src1 := { src with
          head := srcHead1
          current := prev.map Client.win
          client_cnt := src.client_cnt - 1 }
        let s2 := setWs s1 s.cw src1
        if follow then
          change_ws ws (setWs s2 ws { (s2.wss ws) with current := some c })
        else
          update_focused_client (prev.map Client.win) s2

/-- Whether the second list starts with the first. -/
def leadingMatch : List Char → List Char → Bool
  | [], _ => true
  | _ :: _, [] => false
  | a :: as, b :: bs => a = b && leadingMatch as bs

/-- `strstr(haystack, needle) != NULL`: the needle occurs contiguously in
the haystack (an empty needle always matches). -/
def strstrFound (needle : List Char) : List Char → Bool
  | [] => needle.isEmpty
  | l@(_ :: rest) => leadingMatch needle l || strstrFound needle rest

/-- A rule row (config.h; the spec describes rules only by shape). -/
structure Rule where
  class_ : List Char
  ws : Int
  follow : Bool
  is_floating : Bool
  is_fullscreen : Bool

/-- `apply_rules(c)`: find the first rule whose class substring occurs
(strstr) in the WM_CLASS instance or class name, copy its flags onto the
client and move it to the rule's workspace.  `wm_class` is the X reply
(`none` when the property is unreadable, in which case nothing happens). -/
def apply_rules (rules : List Rule) (wm_class : Option (List Char × List Char))
    (cid : Nat) (s : SysState) : SysState :=
  match wm_class with
  | none => s
  | some (inst, cls) =>
    match rules.find? (fun r => strstrFound r.class_ inst || strstrFound r.class_ cls) with
    | none => s
    | some r =>
      let s1 := updateClientInCw cid (fun c =>
        { c with is_floating := r.is_floating, is_fullscreen := r.is_fullscreen }) s
      client_to_ws (some cid) (if r.ws = 0 then s1.cw else r.ws) r.follow s1

/-- `_NET_WM_WINDOW_TYPE` atoms distinguished by `map_event`. -/
inductive WinType
  | dock | toolbar | notification | dropdown_menu | splash | popup_menu
  | tooltip | dialog | other
deriving DecidableEq

/-- The X-server replies `map_event` consumes for one map request: the
window, its attributes, its `_NET_WM_WINDOW_TYPE` atoms, its
WM_TRANSIENT_FOR window (0 for none), its geometry (width, height, x, y)
and its WM_CLASS strings. -/
structure MapInput where
  window : Nat
  wa_missing : Bool := false
  override_redirect : Bool := false
  type_atoms : Option (List WinType) := none
  transient_for : Nat := 0
  geom : Option (Nat × Nat × Nat × Nat) := none
  wm_class : Option (List Char × List Char) := none

/-- The window-type loop of `map_event`: a DOCK or TOOLBAR atom makes the
handler return at once (second component true); the floating types set
`is_floating` on the new client; later atoms are still examined. -/
def mapTypeLoop (cid : Nat) : List WinType → SysState → SysState × Bool
  | [], s => (s, false)
  | a :: rest, s =>
    if a = WinType.dock ∨ a = WinType.toolbar then (s, true)
    else if a = WinType.notification ∨ a = WinType.dropdown_menu ∨
        a = WinType.splash ∨ a = WinType.popup_menu ∨ a = WinType.tooltip ∨
        a = WinType.dialog then
      mapTypeLoop cid rest
        (updateClientInCw cid (fun c => { c with is_floating := true }) s)
    else mapTypeLoop cid rest s

/-- `map_event`: ignore override-redirect or already-managed windows;
otherwise create the client, classify the window type (dock/toolbar return
from the handler), float transients, read the initial geometry for floating
clients, apply the rules, re-arrange and focus.  The actual map and button
grab are external. -/
def map_event (rules : List Rule) (inp : MapInput) (s : SysState) : SysState :=
  if inp.wa_missing || inp.override_redirect ||
      (find_client_by_win inp.window s).isSome then s
  else
    let s1 := (create_client inp.window s).1
    let tl := match inp.type_atoms with
      | none => (s1, false)
      | some atoms => mapTypeLoop inp.window atoms s1
    match tl with
    | (s2, true) => s2
    | (s2, false) =>
      let s3 := updateClientInCw inp.window (fun c =>
        let c1 := { c with is_transient := inp.transient_for ≠ 0 }
        if c1.is_transient then { c1 with is_floating := true } else c1) s2
      let s4 := match inp.geom with
        | none => s3
        | some (gw, gh, gx, gy) =>
          updateClientInCw inp.window (fun c =>
            if c.is_floating then
              let w := if gw > 1 then gw else FLOAT_SPAWN_WIDTH
              let h := if gh > 1 then gh else FLOAT_SPAWN_HEIGHT
              let x := if CENTER_FLOATING then sub16 (s3.screen_width / 2) (w / 2)
                else u16 gx
              let y := if CENTER_FLOATING then
                  (sub16 (sub16 s3.screen_height (s3.wss s3.cw).bar_height) h) / 2
                else u16 gy
              { c with w := u16 w, h := u16 h, x := x, y := y }
            else c) s3
      let s5 := apply_rules rules inp.wm_class inp.window s4
      let s6 := arrange_windows s5
      update_focused_client (some inp.window) s6

/-- A fresh state: empty workspaces, `cw = DEFAULT_WORKSPACE`, a 1920x1080
screen (the concrete scenarios of the spec). -/
def initState : SysState :=
  { wss := fun _ => {}, cw := 1, last_ws := 0,
    screen_width := 1920, screen_height := 1080 }

/-- The concrete workspace of claim C4: three non-floating, non-fullscreen,
non-transient clients A, B, C on a 1920x1080 screen, 20-pixel top bar,
gap 0, vstack layout, master_ratio 1/2. -/
def vstackDemo : SysState :=
  { wss := fun j => if j = 1 then
      { layout := VSTACK, client_cnt := 3, gap := 0, master_ratio := ⟨1, 2⟩,
        bar_height := 20,
        head := [{ win := 1 }, { win := 2 }, { win := 3 }],
        prev_foc := none, current := some 3 }
    else {},
    cw := 1, screen_width := 1920, screen_height := 1080 }

/-! ### Delete-register stack, cut and paste -/

/-- `stack_push(&del_reg, c)`: refuse a NULL head or a full stack,
otherwise the pushed sublist becomes the top. -/
def stack_push (st : List (List Client)) (c : List Client) : List (List Client) :=
  if c = [] then st
  else if DELETE_REGISTER_SIZE ≤ st.length then st
  else c :: st

/-- `stack_pop(&del_reg)`: NULL from an empty stack, otherwise the top
element and the shrunk stack. -/
def stack_pop (st : List (List Client)) : Option (List Client) × List (List Client) :=
  match st with
  | [] => (none, [])
  | h :: t => (some h, t)

/-- The `while (cnt > 0)` loop of the workspace branch of `op_cut`, with
`cnt` as fuel.  Each pass pushes the whole list of workspace
`correct_ws(cw + cnt - 1)` and clears its head and focus pointers; the
source then decrements `cnt` *before* executing
`wss[correct_ws(cw + cnt - 1)].client_cnt = 0`, so the zeroed count belongs
to the workspace handled on the *next* pass (one below the cleared one on
the last pass). -/
def opCutWsLoop : Nat → Int → SysState → SysState
  | 0, _, s => s
  | fuel + 1, cnt, s =>
    let w := correct_ws (s.cw + cnt - 1)
    let headw := (s.wss w).head
    -- the unmap of every client of the sublist is external
    let s1 := { s with del_reg := stack_push s.del_reg headw }
    let s2 := setWs s1 w { s1.wss w with
      head := []
      prev_foc := none
      current := none }
    let cnt1 := cnt - 1
    let wz := correct_ws (s2.cw + cnt1 - 1)
    let s3 := setWs s2 wz { s2.wss wz with client_cnt := 0 }
    opCutWsLoop fuel cnt1 s3

/-- Split a list at the first client carrying the given window:
`(before, the client, after)`. -/
def splitAtWin (w : Nat) : List Client → Option (List Client × Client × List Client)
  | [] => none
  | c :: rest =>
    if c.win = w then some ([], c, rest)
    else (splitAtWin w rest).map (fun t => (c :: t.1, t.2.1, t.2.2))

/-- The client branch of `op_cut` (`cnt < wss[cw].client_cnt`), expressed
on the list decomposition `P ++ cur :: S` of the current workspace around
`current`.  The `while (cnt > 1)` walk visits `nsteps = cnt - 1` clients
after `cur`, wrapping into `P` through the temporary ring
(`tail->next = next_client(tail)`) when it passes the tail; `head_prev` is
`prev_client(current, cw)` (the tail of the whole list when `cur` is the
head).  The walked prefix of the detached sublist clears a matching
`prev_foc`; the detached sublist is pushed after the refocus. -/
def opCutClient (curWin : Nat) (cnt : Int) (s : SysState) : SysState :=
  let ws := s.wss s.cw
  match splitAtWin curWin ws.head with
  | none => s  -- wss[cw].current outside the list: dangling pointer in C
  | some (P, cur, S) =>
    let head_prev := prev_client (some curWin) ws.head
    let nsteps := (cnt - 1).toNat
    if (if P = [] then S.length < nsteps else S.length + P.length ≤ nsteps) then
      -- the walk would lap the temporary ring, possible only when the
      -- stored client_cnt exceeds the real list length (corrupted state):
      -- repeated unmaps and a ring cut at a stale node in C
      s
    else
      let detached := cur :: (S ++ P).take nsteps
      let wrap := S.length < nsteps
      let newHead :=
        if P = [] then (if nsteps = S.length then [] else S.drop nsteps)
        else if wrap then P.drop (nsteps - S.length)
        else P ++ S.drop nsteps
      let prev_foc1 :=
        if (detached.take nsteps).any (fun d => ws.prev_foc == some d.win) then none
        else ws.prev_foc
      let hpWin := head_prev.map Client.win
      let ws1 := { ws with
        head := newHead
        client_cnt := ws.client_cnt - 1 - (nsteps : Int)
        prev_foc := prev_foc1
        current := hpWin }
      let s1 := setWs s s.cw ws1
      let s2 := update_focused_client hpWin s1
      { s2 with del_reg := stack_push s2.del_reg detached }

/-- `op_cut(type, cnt)`: an empty `current` returns at once; then the
cram guards, the workspace branch (also taken by `type = CLIENT` with
`cnt >= wss[cw].client_cnt`), and the client branch. -/
def op_cut (type : Nat) (cnt : Int) (s : SysState) : SysState :=
  match (s.wss s.cw).current with
  | none => s   -- Client *head = wss[cw].current; if (!head) return;
  | some curWin =>
    if DELETE_REGISTER_SIZE ≤ s.del_reg.length then s
    else if (type = CLIENT ∧ (s.wss s.cw).client_cnt ≤ cnt) ∨ type = WORKSPACE then
      if (DELETE_REGISTER_SIZE : Int) < cnt + (s.del_reg.length : Int) then s
      else opCutWsLoop cnt.toNat cnt s
    else if type = CLIENT then opCutClient curWin cnt s
    else s

/-- `paste(arg)`: pop one sublist and splice it in after the current
client — as the new head when no client is current, at the tail when the
current client is the last, in the middle otherwise.  The focus moves to
the last pasted client; the maps of the pasted windows are external. -/
def paste (s : SysState) : SysState :=
  match stack_pop s.del_reg with
  | (none, _) => s
  | (some headl, rest) =>
    let s0 := { s with del_reg := rest }
    let ws := s0.wss s0.cw
    match ws.current with
    | none =>
      let ws1 := { ws with
        head := headl
        current := headl.getLast?.map Client.win
        client_cnt := ws.client_cnt + headl.length }
      update_focused_client ws1.current (setWs s0 s0.cw ws1)
    | some curWin =>
      match splitAtWin curWin ws.head with
      | none => s  -- dangling wss[cw].current: undefined in C
      | some (P, cur, S) =>
        if S = [] then
          -- wss[cw].current->next == NULL: append at the tail
          let ws1 := { ws with
            head := P ++ [cur] ++ headl
            current := if headl = [] then ws.current
              else headl.getLast?.map Client.win
            client_cnt := ws.client_cnt + headl.length }
          update_focused_client ws1.current (setWs s0 s0.cw ws1)
        else
          let ws1 := { ws with
            head := if headl = [] then P ++ [cur]
              else P ++ [cur] ++ headl ++ S
            current := if headl = [] then ws.current
              else headl.getLast?.map Client.win
            client_cnt := ws.client_cnt + headl.length }
          update_focused_client ws1.current (setWs s0 s0.cw ws1)

/-! ### IPC integer-argument parser -/

/-- The digit tests of `ipc_arg_to_int` after the sign has been stripped.
The source nests a weaker digit test inside each accepting branch and
assigns `IPC_ERR_ARG_NOT_INT` when it fails; the outer conditions already
imply the inner ones, so those assignments are dead. -/
def ipcDigits (sign : Int) (a : List Char) (err : Nat) : Int × Nat :=
  match a with
  | [c] =>       -- strlen(arg) == 1
    if '0'.toNat < c.toNat ∧ c.toNat ≤ '9'.toNat then
      if '0'.toNat ≤ c.toNat ∧ c.toNat ≤ '9'.toNat then
        (sign * ((c.toNat : Int) - ('0'.toNat : Int)), err)
      else (0, IPC_ERR_ARG_NOT_INT)
    else (0, IPC_ERR_ARG_TOO_LARGE)
  | [c0, c1] =>  -- strlen(arg) == 2
    if '0'.toNat < c0.toNat ∧ c0.toNat ≤ '9'.toNat ∧
        '0'.toNat ≤ c1.toNat ∧ c1.toNat ≤ '9'.toNat then
      if '0'.toNat < c0.toNat ∧ c0.toNat ≤ '9'.toNat ∧
          '0'.toNat ≤ c1.toNat ∧ c1.toNat ≤ '9'.toNat then
        (sign * (10 * ((c0.toNat : Int) - ('0'.toNat : Int)) +
          ((c1.toNat : Int) - ('0'.toNat : Int))), err)
      else (0, IPC_ERR_ARG_NOT_INT)
    else (0, IPC_ERR_ARG_TOO_LARGE)
  | _ => (0, IPC_ERR_ARG_TOO_LARGE)

/-- `ipc_arg_to_int(arg, &err)`: strip an optional leading minus, then
accept one- or two-digit decimals; `err` is written only on failure. -/
def ipc_arg_to_int (arg : List Char) (err : Nat) : Int × Nat :=
  let sign : Int := if arg.head? = some '-' then -1 else 1
  let a := if arg.head? = some '-' then arg.drop 1 else arg
  ipcDigits sign a err

/-! ### Input FSA (`key_press_event`) -/

def XK_0 : Nat := 48
def XK_1 : Nat := 49
def XK_9 : Nat := 57
def XCB_MOD_MASK_LOCK : Nat := 2

/-- The modifier configuration: the numlock mask discovered at startup and
COUNT_MOD of config.h. -/
structure KeyCfg where
  numlockmask : Nat
  count_mod : Nat
deriving DecidableEq

/-- `CLEANMASK(mask)`: clear numlock and caps-lock (modifier state is a
16-bit field). -/
def CLEANMASK (cfg : KeyCfg) (m : Nat) : Nat :=
  m &&& (65535 ^^^ ((cfg.numlockmask ||| XCB_MOD_MASK_LOCK) &&& 65535))

/-- `EQUALMODS(mask, omask)`. -/
def EQUALMODS (cfg : KeyCfg) (a b : Nat) : Bool :=
  CLEANMASK cfg a == CLEANMASK cfg b

/-- A row of the `operators` table; `func` identifies the operator
function pointer. -/
structure OperatorRow where
  mod : Nat
  sym : Nat
  mode : Nat
  func : Nat
deriving DecidableEq

/-- A row of the `motions` table. -/
structure MotionRow where
  mod : Nat
  sym : Nat
  type : Nat
deriving DecidableEq

/-- A direct-binding command other than `replay`: no command writes
`cur_state`, `cur_cnt` or `operator_func`, and only `change_mode` writes
`cur_mode`, so only that one needs distinguished structure. -/
inductive CmdB
  | change_mode (i : Int)
  | other (tag : Nat)
deriving DecidableEq

/-- A direct-binding function pointer: `replay` itself or any other
command.  `save_last_cmd` is reached only for non-replay commands, so the
replay record stores a `CmdB`. -/
inductive CmdF
  | replay
  | basic (c : CmdB)
deriving DecidableEq

/-- A row of the `keys` table (`func` may be NULL; the loop skips it). -/
structure KeyRow where
  mod : Nat
  mode : Nat
  sym : Nat
  func : Option CmdF
deriving DecidableEq

/-- The three binding tables of config.h (described by the spec only in
shape). -/
structure Tables where
  operators : List OperatorRow
  motions : List MotionRow
  keys : List KeyRow

/-- `struct replay_state`. -/
structure RepState where
  last_op : Option Nat := none
  last_type : Nat := 0
  last_cnt : Nat := 0
  last_cmd : Option CmdB := none
deriving DecidableEq

/-- The FSA-related mutable globals of howm.c: `cur_state`, `cur_cnt`,
`operator_func`, `cur_mode` and the replay record. -/
structure FsaM where
  cur_state : Nat := OPERATOR_STATE
  cur_cnt : Nat := 1
  operator_func : Option Nat := none
  cur_mode : Nat := NORMAL
  rep : RepState := {}
deriving DecidableEq

/-- An operator invocation `op(type, cnt)`; the operator is `none` when
the C function pointer would be NULL (a crash in the source). -/
abbrev Inv := Option Nat × Nat × Nat

/-- `save_last_ocm(op, type, cnt)`. -/
def save_last_ocm (op : Option Nat) (type cnt : Nat) : RepState :=
  { last_op := op, last_type := type, last_cnt := cnt, last_cmd := none }

/-- `save_last_cmd(cmd, arg)` (the argument is bundled in the command). -/
def save_last_cmd (c : CmdB) (r : RepState) : RepState :=
  { r with last_cmd := some c, last_op := none }

/-- `change_mode(arg)` (the unsigned assignment wraps a negative index). -/
def change_modeF (i : Int) (m : FsaM) : FsaM :=
  if (END_MODES : Int) ≤ i ∨ i = (m.cur_mode : Int) then m
  else { m with cur_mode := ((i % 4294967296 + 4294967296) % 4294967296).toNat }

/-- Effect of a non-replay command on the FSA globals. -/
def execB (c : CmdB) (m : FsaM) : FsaM :=
  match c with
  | CmdB.change_mode i => change_modeF i m
  | CmdB.other _ => m

/-- `replay()`: run the saved command, or the saved operator triple. -/
def execReplay (m : FsaM) : FsaM × List Inv :=
  match m.rep.last_cmd with
  | some c => (execB c m, [])
  | none => (m, [(m.rep.last_op, m.rep.last_type, m.rep.last_cnt)])

/-- The guard of the `operators` scan. -/
def operMatch (cfg : KeyCfg) (mode sym mods : Nat) (r : OperatorRow) : Bool :=
  sym == r.sym && EQUALMODS cfg r.mod mods && r.mode == mode

/-- The guard of the `motions` scan. -/
def motionMatch (cfg : KeyCfg) (sym mods : Nat) (r : MotionRow) : Bool :=
  sym == r.sym && EQUALMODS cfg r.mod mods

/-- The guard of the `keys` scan. -/
def keyMatch (cfg : KeyCfg) (mode sym mods : Nat) (r : KeyRow) : Bool :=
  sym == r.sym && EQUALMODS cfg r.mod mods && r.func.isSome && r.mode == mode

/-- The direct-binding loop at the bottom of `key_press_event`: every
matching row's function runs; non-replay commands are recorded for
replay. -/
def keysScan (cfg : KeyCfg) (sym mods : Nat) : List KeyRow → FsaM → FsaM × List Inv
  | [], m => (m, [])
  | r :: rest, m =>
    if keyMatch cfg m.cur_mode sym mods r then
      match r.func with
      | some CmdF.replay =>
        let p := execReplay m
        let q := keysScan cfg sym mods rest p.1
        (q.1, p.2 ++ q.2)
      | some (CmdF.basic b) =>
        let m1 := execB b m
        keysScan cfg sym mods rest { m1 with rep := save_last_cmd b m1.rep }
      | none => keysScan cfg sym mods rest m   -- excluded by the guard
    else keysScan cfg sym mods rest m

/-- The `motions` scan (no break: every matching row invokes the stored
operator, saves the triple and resets the automaton). -/
def motionScan (cfg : KeyCfg) (sym mods : Nat) : List MotionRow → FsaM → FsaM × List Inv
  | [], m => (m, [])
  | r :: rest, m =>
    if motionMatch cfg sym mods r then
      let inv : Inv := (m.operator_func, r.type, m.cur_cnt)
      let m1 := { m with
        rep := save_last_ocm m.operator_func r.type m.cur_cnt
        cur_state := OPERATOR_STATE
        cur_cnt := 1 }
      let q := motionScan cfg sym mods rest m1
      (q.1, inv :: q.2)
    else motionScan cfg sym mods rest m

/-- `key_press_event`: the `switch (cur_state)` followed by the
direct-binding scan.  The event is given by its translated keysym and its
modifier state. -/
def key_press_event (T : Tables) (cfg : KeyCfg) (sym mods : Nat) (m : FsaM) :
    FsaM × List Inv :=
  let p :=
    if m.cur_state = OPERATOR_STATE then
      match T.operators.find? (operMatch cfg m.cur_mode sym mods) with
      | some r => ({ m with operator_func := some r.func, cur_state := COUNT_STATE },
          ([] : List Inv))
      | none => (m, [])
    else if m.cur_state = COUNT_STATE then
      if EQUALMODS cfg cfg.count_mod mods ∧ XK_1 ≤ sym ∧ sym ≤ XK_9 then
        ({ m with cur_cnt := sym - XK_0, cur_state := MOTION_STATE }, [])
      else motionScan cfg sym mods T.motions m
    else if m.cur_state = MOTION_STATE then
      motionScan cfg sym mods T.motions m
    else (m, [])
  let q := keysScan cfg sym mods T.keys p.1
  (q.1, p.2 ++ q.2)

/-- Run a key-event sequence, concatenating the operator invocations. -/
def kpeRun (T : Tables) (cfg : KeyCfg) : List (Nat × Nat) → FsaM → FsaM × List Inv
  | [], m => (m, [])
  | e :: evs, m =>
    let p := key_press_event T cfg e.1 e.2 m
    let q := kpeRun T cfg evs p.1
    (q.1, p.2 ++ q.2)

/-- The state of a workspace with one managed client (window 5), for the
unmap-notify scenario. -/
def unmapDemo : SysState :=
  { wss := fun j => if j = 1 then
      { client_cnt := 1, head := [{ win := 5 }], current := some 5 }
    else {},
    cw := 1, last_ws := 0, screen_width := 1920, screen_height := 1080 }

/-- Two workspaces with one client each (windows 1 and 2), current
workspace 1, for the cut scenarios. -/
def cutDemo : SysState :=
  { wss := fun j =>
      if j = 1 then { client_cnt := 1, head := [{ win := 1 }], current := some 1 }
      else if j = 2 then { client_cnt := 1, head := [{ win := 2 }], current := some 2 }
      else {},
    cw := 1, last_ws := 0, screen_width := 1920, screen_height := 1080 }

/-- One-single-row tables for the FSA witness: one operator on keysym 100,
one motion on keysym 99, no direct bindings. -/
def demoTables : Tables :=
  { operators := [{ mod := 0, sym := 100, mode := 0, func := 0 }]
    motions := [{ mod := 0, sym := 99, type := 0 }]
    keys := [] }

/-- Modifier configuration for the FSA witness. -/
def demoCfg : KeyCfg := { numlockmask := 0, count_mod := 4 }

/-! Auxiliary characterisation lemmas for the `prev_client` walk. -/

lemma prevClientAux_not_found (c : Nat) (p : Client) (ys : List Client)
    (h : c ∉ ys.map Client.win) :
    prevClientAux c p ys = (p :: ys).getLast (by simp) := by
  induction ys generalizing p with
  | nil => simp [prevClientAux]
  | cons q rest ih =>
    simp only [List.map_cons, List.mem_cons] at h
    push_neg at h
    rw [prevClientAux, if_neg (by exact fun hq => h.1 hq.symm)]
    rw [ih q h.2]
    simp [List.getLast_cons]

lemma prevClientAux_found (c : Nat) (p : Client) (ys zs : List Client)
    (ce : Client) (hys : c ∉ ys.map Client.win) (hce : ce.win = c) :
    prevClientAux c p (ys ++ ce :: zs) = (p :: ys).getLast (by simp) := by
  induction ys generalizing p with
  | nil => simp [prevClientAux, hce]
  | cons q rest ih =>
    simp only [List.map_cons, List.mem_cons] at hys
    push_neg at hys
    rw [List.cons_append, prevClientAux, if_neg (by exact fun hq => hys.1 hq.symm)]
    rw [ih q hys.2]
    simp [List.getLast_cons]

/-- C8 counterexample: with the two-client list A(win 1) → B(win 2) and
`c` = A the head, `prev_client` returns B (the tail), not nil as the claim
states. -/
theorem prev_client_head_returns_tail :
    prev_client (some 1) [({ win := 1 } : Client), { win := 2 }] =
      some { win := 2 } := by decide

/-- C8 (amended): `prev_client(c, ws)` returns nil when `c` is nil or the
workspace's list has fewer than two clients; otherwise it walks from the
head and returns the client whose next pointer is (the first occurrence of)
`c` when `c` sits at a non-head position, and returns the tail of the list
when `c` is the head or absent. -/
theorem prev_client_characterisation
    (pre post : List Client) (p ce : Client) (cid : Nat)
    (hce : ce.win = cid) (hnot : cid ∉ (pre ++ [p]).map Client.win) :
    prev_client (some cid) (pre ++ p :: ce :: post) = some p ∧
    (∀ l : List Client, prev_client none l = none) ∧
    (∀ (c : Option Nat) (l : List Client), l.length ≤ 1 → prev_client c l = none) ∧
    (∀ (d : Nat) (l : List Client), 2 ≤ l.length → d ∉ (l.drop 1).map Client.win →
      prev_client (some d) l = l.getLast?) := by
  refine ⟨?_, ?_, ?_, ?_⟩
  · cases pre with
    | nil =>
      simp [prev_client, prevClientAux, hce]
    | cons a rest =>
      have hsplit : (a :: rest) ++ p :: ce :: post = a :: ((rest ++ [p]) ++ ce :: post) := by
        simp
      rw [hsplit]
      have hrest : cid ∉ (rest ++ [p]).map Client.win := by
        simp only [List.map_append, List.map_cons, List.mem_append, List.mem_cons] at hnot ⊢
        tauto
      rcases hne : (rest ++ [p]) ++ ce :: post with _ | ⟨q, tl⟩
      · exact absurd hne (by simp)
      · rw [prev_client, ← hne, prevClientAux_found cid a (rest ++ [p]) post ce hrest hce]
        have h3 : (a :: (rest ++ [p])).getLast? = some p := by
          rw [show a :: (rest ++ [p]) = (a :: rest) ++ [p] from by simp,
            List.getLast?_concat]
        rw [List.getLast?_eq_getLast _ (by simp)] at h3
        rw [Option.some.inj h3]
  · intro l; cases l <;> rfl
  · intro c l hl
    match c, l with
    | none, [] => rfl
    | none, [_] => rfl
    | some _, [] => rfl
    | some _, [_] => rfl
    | _, _ :: _ :: _ => simp at hl
  · intro d l h2 hd
    match l with
    | x :: y :: rest =>
      simp only [List.drop_one, List.tail_cons] at hd
      rw [prev_client, prevClientAux_not_found d x (y :: rest) hd]
      rw [List.getLast?_eq_getLast _ (by simp)]

/-- Witness for `prev_client_characterisation` at the list [A(1), B(2)] with
`c` = B: the predecessor A is returned. -/
theorem prev_client_characterisation_witness :
    (({ win := 2 } : Client).win = 2 ∧
      (2 : Nat) ∉ (([] : List Client) ++ [({ win := 1 } : Client)]).map Client.win) ∧
    (prev_client (some 2)
        ([] ++ ({ win := 1 } : Client) :: ({ win := 2 } : Client) :: []) =
        some { win := 1 } ∧
      (∀ l : List Client, prev_client none l = none) ∧
      (∀ (c : Option Nat) (l : List Client), l.length ≤ 1 → prev_client c l = none) ∧
      (∀ (d : Nat) (l : List Client), 2 ≤ l.length → d ∉ (l.drop 1).map Client.win →
        prev_client (some d) l = l.getLast?)) :=
  ⟨⟨by decide, by decide⟩,
    prev_client_characterisation [] [] { win := 1 } { win := 2 } 2 (by decide) (by decide)⟩

/-! Preservation lemmas: the layout and focus paths only touch `wss`. -/

lemma zoom_misc (s : SysState) :
    (zoom s).cw = s.cw ∧ (zoom s).last_ws = s.last_ws := ⟨rfl, rfl⟩

lemma grid_misc (s : SysState) :
    (grid s).cw = s.cw ∧ (grid s).last_ws = s.last_ws := by
  simp only [grid]
  split
  · exact zoom_misc s
  · exact ⟨rfl, rfl⟩

lemma stack_misc (s : SysState) :
    (stack s).cw = s.cw ∧ (stack s).last_ws = s.last_ws := by
  simp only [stack]
  split
  · exact zoom_misc s
  · exact ⟨rfl, rfl⟩

lemma arrange_windows_misc (s : SysState) :
    (arrange_windows s).cw = s.cw ∧ (arrange_windows s).last_ws = s.last_ws := by
  simp only [arrange_windows]
  repeat' split
  all_goals first
    | exact grid_misc s
    | exact zoom_misc s
    | exact stack_misc s
    | exact ⟨rfl, rfl⟩

lemma update_focused_client_misc (c : Option Nat) (s : SysState) :
    (update_focused_client c s).cw = s.cw ∧
      (update_focused_client c s).last_ws = s.last_ws := by
  cases c with
  | none => exact ⟨rfl, rfl⟩
  | some cid =>
    simp only [update_focused_client]
    split
    · exact ⟨rfl, rfl⟩
    · constructor
      · rw [(arrange_windows_misc _).1]
        split
        · rfl
        · split <;> rfl
      · rw [(arrange_windows_misc _).2]
        split
        · rfl
        · split <;> rfl

lemma change_ws_cw (s : SysState) (i : Int)
    (h1 : 1 ≤ i) (h2 : i ≤ (WORKSPACES : Int)) : (change_ws i s).cw = i := by
  simp only [change_ws]
  split
  case isTrue h =>
    rcases h with h | h | h
    · simp only [WORKSPACES] at h h2; omega
    · omega
    · exact h.symm
  case isFalse h =>
    rw [(update_focused_client_misc _ _).1]

lemma change_ws_last_ws_active (s : SysState) (i : Int)
    (hne : i ≠ s.cw) (h1 : 1 ≤ i) (h2 : i ≤ (WORKSPACES : Int)) :
    (change_ws i s).last_ws = s.cw := by
  simp only [change_ws]
  split
  case isTrue h =>
    rcases h with h | h | h
    · simp only [WORKSPACES] at h h2; omega
    · omega
    · exact absurd h hne
  case isFalse h =>
    rw [(update_focused_client_misc _ _).2]

/-- C7: `change_ws(i)` with `i = cw` or `i` out of range is a complete
no-op (the handler returns before touching anything), and the sequence
switch(a); switch(b); switch(a) for distinct in-range a, b leaves
`last_ws = b`. -/
theorem change_ws_props (s : SysState) (a b : Int)
    (ha1 : 1 ≤ a) (ha2 : a ≤ (WORKSPACES : Int))
    (hb1 : 1 ≤ b) (hb2 : b ≤ (WORKSPACES : Int)) (hab : a ≠ b) :
    (∀ i : Int, (i > (WORKSPACES : Int) ∨ i ≤ 0 ∨ i = s.cw) → change_ws i s = s) ∧
    (change_ws a (change_ws b (change_ws a s))).last_ws = b := by
  constructor
  · intro i hi
    simp only [change_ws]
    rw [if_pos hi]
  · have h2 : (change_ws b (change_ws a s)).cw = b := change_ws_cw _ b hb1 hb2
    have h3 : (change_ws a (change_ws b (change_ws a s))).last_ws =
        (change_ws b (change_ws a s)).cw := by
      refine change_ws_last_ws_active _ _ ?_ ha1 ha2
      rw [h2]; exact hab
    rw [h3, h2]

/-- Witness for `change_ws_props` at the fresh state with a = 1, b = 2. -/
theorem change_ws_props_witness :
    ((1 : Int) ≤ 1 ∧ (1 : Int) ≤ (WORKSPACES : Int) ∧ (1 : Int) ≤ 2 ∧
      (2 : Int) ≤ (WORKSPACES : Int) ∧ (1 : Int) ≠ 2) ∧
    ((∀ i : Int, (i > (WORKSPACES : Int) ∨ i ≤ 0 ∨ i = initState.cw) →
        change_ws i initState = initState) ∧
      (change_ws 1 (change_ws 2 (change_ws 1 initState))).last_ws = 2) :=
  ⟨⟨by decide, by decide, by decide, by decide, by decide⟩,
    change_ws_props initState 1 2 (by decide) (by decide) (by decide) (by decide)
      (by decide)⟩

/-- C4: with three tilable clients A, B, C on a 1920x1080 screen with a
20-pixel top bar, gap 0, vstack layout and master_ratio 0.5, the layout
engine assigns A the rectangle (0, 20, 960, 1060), B the rectangle
(960, 20, 960, 530) and C the rectangle (960, 550, 960, 530). -/
theorem vstack_three_clients :
    ((arrange_windows vstackDemo).wss 1).head.map (fun c => (c.x, c.y, c.w, c.h)) =
      [(0, 20, 960, 1060), (960, 20, 960, 530), (960, 550, 960, 530)] := by
  decide

/-- C5 (code bug): `map_event` creates and inserts the client before
classifying the window type, and the DOCK early return does not undo the
insertion: after a map request for a DOCK window the client is present in
the workspace list and the current workspace's count went from 0 to 1. -/
theorem map_event_dock_left_managed :
    ((find_client_by_win 7 (map_event []
        { window := 7, type_atoms := some [WinType.dock] } initState)).isSome = true) ∧
    ((map_event [] { window := 7, type_atoms := some [WinType.dock] }
        initState).wss 1).client_cnt = 1 ∧
    (initState.wss 1).client_cnt = 0 := by decide

/-- C6 (code bug): an unmap-notify for managed window 5 whose event window
(7) differs from the root (42) leaves the whole state unchanged: the guard
`!ue->event == screen->root` compares `!event` (0 here) with the root id
and is false, so `remove_client` never runs. -/
theorem unmap_event_ignores_nonroot :
    (find_client_by_win 5 unmapDemo).isSome = true ∧
    unmap_event 5 7 42 unmapDemo = unmapDemo := by
  exact ⟨by decide, rfl⟩

/-- C1 (code bug): create one client by a map request, then cut one
workspace.  After `op_cut(WORKSPACE, 1)` the current workspace's list is
empty but its `client_cnt` is still 1: the loop decrements `cnt` before
zeroing `client_cnt`, so the zero write lands on `correct_ws(cw - 1)`
instead of `cw`. -/
theorem op_cut_ws_breaks_count :
    (((map_event [] { window := 10 } initState).wss 1).client_cnt = 1 ∧
      ((map_event [] { window := 10 } initState).wss 1).head.length = 1) ∧
    ((op_cut WORKSPACE 1 (map_event [] { window := 10 } initState)).wss 1).client_cnt
        = 1 ∧
    ((op_cut WORKSPACE 1 (map_event [] { window := 10 } initState)).wss 1).head
        = [] := by decide

/-- C2 (code bug): with one client on each of workspaces 1 and 2 and
cw = 1, `op_cut(CLIENT, 2)` (count 2 ≥ client count 1) does not degenerate
to cutting workspace 1 alone: workspace 2's list is also cleared, two
sublists are pushed, and the count zeroing is off by one (workspace 1's
count is zeroed on the first pass, workspace 2's never). -/
theorem op_cut_degenerate_clears_other_ws :
    ((op_cut CLIENT 2 cutDemo).wss 2).head = [] ∧
    ((op_cut CLIENT 2 cutDemo).wss 2).current = none ∧
    (op_cut CLIENT 2 cutDemo).del_reg.length = 2 ∧
    ((op_cut CLIENT 2 cutDemo).wss 1).client_cnt = 0 ∧
    ((op_cut CLIENT 2 cutDemo).wss 2).client_cnt = 1 := by decide

/-- C10: with an empty delete register `paste` is a no-op — `stack_pop`
returns NULL and the handler returns before touching any state. -/
theorem paste_empty_stack_noop (s : SysState) (h : s.del_reg = []) :
    paste s = s := by
  simp only [paste, h, stack_pop]

/-- Witness for `paste_empty_stack_noop` at the fresh state. -/
theorem paste_empty_stack_noop_witness :
    initState.del_reg = [] ∧ paste initState = initState :=
  ⟨rfl, paste_empty_stack_noop initState rfl⟩

/-- The inner `IPC_ERR_ARG_NOT_INT` branches of `ipc_arg_to_int` are dead:
their guards are implied by the enclosing conditions. -/
lemma ipcDigits_ne_not_int (sign : Int) (a : List Char) :
    (ipcDigits sign a IPC_ERR_NONE).2 ≠ IPC_ERR_ARG_NOT_INT := by
  match a with
  | [] => simp [ipcDigits, IPC_ERR_ARG_TOO_LARGE, IPC_ERR_ARG_NOT_INT]
  | [c] =>
    simp only [ipcDigits]
    split
    case isTrue h =>
      rw [if_pos ⟨Nat.le_of_lt h.1, h.2⟩]
      simp [IPC_ERR_NONE, IPC_ERR_ARG_NOT_INT]
    case isFalse h =>
      simp [IPC_ERR_ARG_TOO_LARGE, IPC_ERR_ARG_NOT_INT]
  | [c0, c1] =>
    simp only [ipcDigits]
    split
    case isTrue h =>
      simp [IPC_ERR_NONE, IPC_ERR_ARG_NOT_INT]
    case isFalse h =>
      simp [IPC_ERR_ARG_TOO_LARGE, IPC_ERR_ARG_NOT_INT]
  | _ :: _ :: _ :: _ =>
    simp [ipcDigits, IPC_ERR_ARG_TOO_LARGE, IPC_ERR_ARG_NOT_INT]

/-- C9 (code bug): the argument "x" (one character, not a digit) is
reported as arg-too-large, and no argument string at all can produce the
arg-not-int status — both `IPC_ERR_ARG_NOT_INT` assignments of the source
sit under conditions made unsatisfiable by their enclosing tests. -/
theorem ipc_arg_to_int_not_int_unreachable :
    (ipc_arg_to_int ['x'] IPC_ERR_NONE).2 = IPC_ERR_ARG_TOO_LARGE ∧
    ∀ arg : List Char, (ipc_arg_to_int arg IPC_ERR_NONE).2 ≠ IPC_ERR_ARG_NOT_INT := by
  refine ⟨by decide, ?_⟩
  intro arg
  simp only [ipc_arg_to_int]
  exact ipcDigits_ne_not_int _ _

/-! FSA scan lemmas. -/

lemma keysScan_no_match (cfg : KeyCfg) (sym mods : Nat) (L : List KeyRow)
    (m : FsaM) (h : L.filter (keyMatch cfg m.cur_mode sym mods) = []) :
    keysScan cfg sym mods L m = (m, []) := by
  induction L with
  | nil => rfl
  | cons r rest ih =>
    rw [List.filter_cons] at h
    by_cases hr : keyMatch cfg m.cur_mode sym mods r
    · rw [if_pos (by simpa using hr)] at h
      exact absurd h (by simp)
    · rw [if_neg (by simpa using hr)] at h
      rw [keysScan, if_neg hr]
      exact ih h

lemma motionScan_no_match (cfg : KeyCfg) (sym mods : Nat) (L : List MotionRow)
    (m : FsaM) (h : L.filter (motionMatch cfg sym mods) = []) :
    motionScan cfg sym mods L m = (m, []) := by
  induction L with
  | nil => rfl
  | cons r rest ih =>
    rw [List.filter_cons] at h
    by_cases hr : motionMatch cfg sym mods r
    · rw [if_pos (by simpa using hr)] at h
      exact absurd h (by simp)
    · rw [if_neg (by simpa using hr)] at h
      rw [motionScan, if_neg hr]
      exact ih h

lemma motionScan_single (cfg : KeyCfg) (sym mods : Nat) (L : List MotionRow)
    (r : MotionRow) (m : FsaM)
    (h : L.filter (motionMatch cfg sym mods) = [r]) :
    motionScan cfg sym mods L m =
      ({ m with
          rep := save_last_ocm m.operator_func r.type m.cur_cnt
          cur_state := OPERATOR_STATE
          cur_cnt := 1 },
        [(m.operator_func, r.type, m.cur_cnt)]) := by
  induction L with
  | nil => simp at h
  | cons q rest ih =>
    rw [List.filter_cons] at h
    by_cases hq : motionMatch cfg sym mods q
    · rw [if_pos (by simpa using hq)] at h
      obtain ⟨rfl, hrest⟩ : q = r ∧ rest.filter (motionMatch cfg sym mods) = [] := by
        simpa using h
      rw [motionScan, if_pos hq]
      dsimp only
      rw [motionScan_no_match cfg sym mods rest _ hrest]
    · rw [if_neg (by simpa using hq)] at h
      rw [motionScan, if_neg hq]
      exact ih h

/-! Single-step characterisations of `key_press_event` along the
operator-count-motion path (under "no direct binding matches"). -/

lemma kpe_operator_step (T : Tables) (cfg : KeyCfg) (sym mods : Nat) (m : FsaM)
    (orow : OperatorRow)
    (h0 : m.cur_state = OPERATOR_STATE)
    (hop : T.operators.find? (operMatch cfg m.cur_mode sym mods) = some orow)
    (hk : T.keys.filter (keyMatch cfg m.cur_mode sym mods) = []) :
    key_press_event T cfg sym mods m =
      ({ m with operator_func := some orow.func, cur_state := COUNT_STATE }, []) := by
  have hscan := keysScan_no_match cfg sym mods T.keys
    { m with operator_func := some orow.func, cur_state := COUNT_STATE } hk
  simp [key_press_event, h0, hop, hscan]

lemma kpe_count_digit_step (T : Tables) (cfg : KeyCfg) (sym mods : Nat) (m : FsaM)
    (hC : m.cur_state = COUNT_STATE)
    (hdig : (EQUALMODS cfg cfg.count_mod mods : Prop) ∧ XK_1 ≤ sym ∧ sym ≤ XK_9)
    (hk : T.keys.filter (keyMatch cfg m.cur_mode sym mods) = []) :
    key_press_event T cfg sym mods m =
      ({ m with cur_cnt := sym - XK_0, cur_state := MOTION_STATE }, []) := by
  have hscan := keysScan_no_match cfg sym mods T.keys
    { m with cur_cnt := sym - XK_0, cur_state := MOTION_STATE } hk
  simp [key_press_event, hC, hdig, COUNT_STATE, OPERATOR_STATE, hscan]

lemma kpe_motion_from_count (T : Tables) (cfg : KeyCfg) (sym mods : Nat)
    (m : FsaM) (mrow : MotionRow)
    (hC : m.cur_state = COUNT_STATE)
    (hnd : ¬((EQUALMODS cfg cfg.count_mod mods : Prop) ∧ XK_1 ≤ sym ∧ sym ≤ XK_9))
    (hmot : T.motions.filter (motionMatch cfg sym mods) = [mrow])
    (hk : T.keys.filter (keyMatch cfg m.cur_mode sym mods) = []) :
    key_press_event T cfg sym mods m =
      ({ m with
          rep := save_last_ocm m.operator_func mrow.type m.cur_cnt
          cur_state := OPERATOR_STATE
          cur_cnt := 1 },
        [(m.operator_func, mrow.type, m.cur_cnt)]) := by
  have hm := motionScan_single cfg sym mods T.motions mrow m hmot
  have hscan := keysScan_no_match cfg sym mods T.keys
    ({ m with
      rep := save_last_ocm m.operator_func mrow.type m.cur_cnt
      cur_state := OPERATOR_STATE
      cur_cnt := 1 }) hk
  simp only [OPERATOR_STATE] at hm hscan
  simp [key_press_event, hC, COUNT_STATE, OPERATOR_STATE, if_neg hnd, hm, hscan]

lemma kpe_motion_from_motion (T : Tables) (cfg : KeyCfg) (sym mods : Nat)
    (m : FsaM) (mrow : MotionRow)
    (hM : m.cur_state = MOTION_STATE)
    (hmot : T.motions.filter (motionMatch cfg sym mods) = [mrow])
    (hk : T.keys.filter (keyMatch cfg m.cur_mode sym mods) = []) :
    key_press_event T cfg sym mods m =
      ({ m with
          rep := save_last_ocm m.operator_func mrow.type m.cur_cnt
          cur_state := OPERATOR_STATE
          cur_cnt := 1 },
        [(m.operator_func, mrow.type, m.cur_cnt)]) := by
  have hm := motionScan_single cfg sym mods T.motions mrow m hmot
  have hscan := keysScan_no_match cfg sym mods T.keys
    ({ m with
      rep := save_last_ocm m.operator_func mrow.type m.cur_cnt
      cur_state := OPERATOR_STATE
      cur_cnt := 1 }) hk
  simp only [OPERATOR_STATE] at hm hscan
  simp [key_press_event, hM, MOTION_STATE, COUNT_STATE, OPERATOR_STATE, hm, hscan]

/-- C3: starting in OPERATOR with the pending count 1, a sequence
`<operator> <count digit> <motion>` invokes the matched operator exactly
once with the motion's type and the digit as count, while `<operator>
<motion>` invokes it once with count 1; the proper prefixes `<operator>`
and `<operator> <digit>` invoke nothing; and after either full sequence
the automaton is back in OPERATOR with the count reset to 1.  Hypotheses:
the first key matches an operator row (first match `orow`), the digit key
satisfies the count test, the motion key matches exactly one motion row
and fails the count test, and none of the three keys matches any direct
binding. -/
theorem fsa_triple (T : Tables) (cfg : KeyCfg) (m0 : FsaM)
    (orow : OperatorRow) (mrow : MotionRow) (sop dop sd dd sm dm : Nat)
    (h0 : m0.cur_state = OPERATOR_STATE) (h1 : m0.cur_cnt = 1)
    (hop : T.operators.find? (operMatch cfg m0.cur_mode sop dop) = some orow)
    (hdig : (EQUALMODS cfg cfg.count_mod dd : Prop) ∧ XK_1 ≤ sd ∧ sd ≤ XK_9)
    (hnd : ¬((EQUALMODS cfg cfg.count_mod dm : Prop) ∧ XK_1 ≤ sm ∧ sm ≤ XK_9))
    (hmot : T.motions.filter (motionMatch cfg sm dm) = [mrow])
    (hk1 : T.keys.filter (keyMatch cfg m0.cur_mode sop dop) = [])
    (hk2 : T.keys.filter (keyMatch cfg m0.cur_mode sd dd) = [])
    (hk3 : T.keys.filter (keyMatch cfg m0.cur_mode sm dm) = []) :
    (kpeRun T cfg [(sop, dop)] m0).2 = [] ∧
    (kpeRun T cfg [(sop, dop), (sd, dd)] m0).2 = [] ∧
    (kpeRun T cfg [(sop, dop), (sd, dd), (sm, dm)] m0).2 =
      [(some orow.func, mrow.type, sd - XK_0)] ∧
    (kpeRun T cfg [(sop, dop), (sd, dd), (sm, dm)] m0).1.cur_state =
      OPERATOR_STATE ∧
    (kpeRun T cfg [(sop, dop), (sd, dd), (sm, dm)] m0).1.cur_cnt = 1 ∧
    (kpeRun T cfg [(sop, dop), (sm, dm)] m0).2 =
      [(some orow.func, mrow.type, 1)] ∧
    (kpeRun T cfg [(sop, dop), (sm, dm)] m0).1.cur_state = OPERATOR_STATE ∧
    (kpeRun T cfg [(sop, dop), (sm, dm)] m0).1.cur_cnt = 1 := by
  have A := kpe_operator_step T cfg sop dop m0 orow h0 hop hk1
  set mA : FsaM :=
    { m0 with operator_func := some orow.func, cur_state := COUNT_STATE } with hmA
  have B := kpe_count_digit_step T cfg sd dd mA rfl hdig hk2
  set mB : FsaM := { mA with cur_cnt := sd - XK_0, cur_state := MOTION_STATE }
    with hmB
  have C := kpe_motion_from_motion T cfg sm dm mB mrow rfl hmot hk3
  have D := kpe_motion_from_count T cfg sm dm mA mrow rfl hnd hmot hk3
  refine ⟨?_, ?_, ?_, ?_, ?_, ?_, ?_, ?_⟩ <;>
    simp [kpeRun, A, B, C, D, h1]

/-- Witness for `fsa_triple` on one-row tables: operator key 100, count
digit '2' (keysym 50) under COUNT_MOD, motion key 99. -/
theorem fsa_triple_witness :
    (({} : FsaM).cur_state = OPERATOR_STATE ∧ ({} : FsaM).cur_cnt = 1 ∧
      demoTables.operators.find? (operMatch demoCfg ({} : FsaM).cur_mode 100 0) =
        some { mod := 0, sym := 100, mode := 0, func := 0 } ∧
      ((EQUALMODS demoCfg demoCfg.count_mod 4 : Prop) ∧ XK_1 ≤ 50 ∧ 50 ≤ XK_9) ∧
      ¬((EQUALMODS demoCfg demoCfg.count_mod 0 : Prop) ∧ XK_1 ≤ 99 ∧ 99 ≤ XK_9) ∧
      demoTables.motions.filter (motionMatch demoCfg 99 0) =
        [{ mod := 0, sym := 99, type := 0 }] ∧
      demoTables.keys.filter (keyMatch demoCfg ({} : FsaM).cur_mode 100 0) = [] ∧
      demoTables.keys.filter (keyMatch demoCfg ({} : FsaM).cur_mode 50 4) = [] ∧
      demoTables.keys.filter (keyMatch demoCfg ({} : FsaM).cur_mode 99 0) = []) ∧
    ((kpeRun demoTables demoCfg [(100, 0)] {}).2 = [] ∧
      (kpeRun demoTables demoCfg [(100, 0), (50, 4)] {}).2 = [] ∧
      (kpeRun demoTables demoCfg [(100, 0), (50, 4), (99, 0)] {}).2 =
        [(some 0, 0, 2)] ∧
      (kpeRun demoTables demoCfg [(100, 0), (50, 4), (99, 0)] {}).1.cur_state =
        OPERATOR_STATE ∧
      (kpeRun demoTables demoCfg [(100, 0), (50, 4), (99, 0)] {}).1.cur_cnt = 1 ∧
      (kpeRun demoTables demoCfg [(100, 0), (99, 0)] {}).2 = [(some 0, 0, 1)] ∧
      (kpeRun demoTables demoCfg [(100, 0), (99, 0)] {}).1.cur_state =
        OPERATOR_STATE ∧
      (kpeRun demoTables demoCfg [(100, 0), (99, 0)] {}).1.cur_cnt = 1) :=
  ⟨by decide,
    fsa_triple demoTables demoCfg {} { mod := 0, sym := 100, mode := 0, func := 0 }
      { mod := 0, sym := 99, type := 0 } 100 0 50 4 99 0
      (by decide) (by decide) (by decide) (by decide) (by decide) (by decide)
      (by decide) (by decide) (by decide)⟩

end Howm
